/-
Verification of the kanban drag-and-drop board of the ACi expo app.

The development shallowly embeds the interaction logic of the kanban screen
(geometry resolver, auto-scroll controller, drag gesture teardown, board
commit logic, category delete guard) and of the scanner screen, and proves
or refutes the specification's claims about them.

Modelling conventions:
  * JavaScript numbers are modelled as exact rationals (ℚ); timestamps
    (`Date.now()`, `new Date(s).getTime()`) as integers in milliseconds.
  * React state setters and refs are modelled as fields of explicit state
    records; each handler becomes a pure function from state to state,
    possibly paired with the ordered list of externally visible actions
    (network calls, alerts, local list mutations) it performs.
  * `async`/`await` results of the HTTP client functions (which live in
    `services/api`, outside the embedded screens) are supplied as `Except`
    parameters: the embedding covers every outcome of each call.
-/
import Mathlib

set_option maxHeartbeats 1000000

/-! ## Layout constants (constants/theme.ts and the kanban screen header) -/

/-- Device-dependent layout inputs: `SCREEN_WIDTH` from `Dimensions.get` and
`COLUMN_WIDTH` (260 / 300 / 320 depending on device class). -/
structure LayoutCfg where
  screenWidth : ℚ
  columnWidth : ℚ
deriving Repr, DecidableEq

/-- `spacing.sm` from the theme. -/
def spacingSm : ℚ := 8

/-- `spacing.md` from the theme. -/
def spacingMd : ℚ := 16

/-- `boardPadding = spacing.md`. -/
def boardPadding : ℚ := spacingMd

/-- `columnSpacing = COLUMN_WIDTH + spacing.sm * 2`. -/
def columnSpacing (c : LayoutCfg) : ℚ := c.columnWidth + spacingSm * 2

/-- `screenCenter = SCREEN_WIDTH / 2`. -/
def screenCenter (c : LayoutCfg) : ℚ := c.screenWidth / 2

/-- `edgeThreshold = SCREEN_WIDTH * 0.1`. -/
def edgeThreshold (c : LayoutCfg) : ℚ := c.screenWidth * (1 / 10)

/-- `centerTolerance = SCREEN_WIDTH * 0.15`. -/
def centerTolerance (c : LayoutCfg) : ℚ := c.screenWidth * (15 / 100)

/-- `tolerance = COLUMN_WIDTH * 0.5` (half a column width). -/
def spanTolerance (c : LayoutCfg) : ℚ := c.columnWidth * (1 / 2)

/-! ## Geometry resolver (`handleDragOverColumn`, direct column detection loop) -/

/-- `columnStartOnScreen = boardPadding + i * columnSpacing - scrollX`. -/
def columnStartOnScreen (c : LayoutCfg) (scrollX : ℚ) (i : ℕ) : ℚ :=
  boardPadding + (i : ℚ) * columnSpacing c - scrollX

/-- `columnEndOnScreen = columnStartOnScreen + columnSpacing`. -/
def columnEndOnScreen (c : LayoutCfg) (scrollX : ℚ) (i : ℕ) : ℚ :=
  columnStartOnScreen c scrollX i + columnSpacing c

/-- `columnCenterOnScreen = columnStartOnScreen + columnSpacing / 2`. -/
def columnCenterOnScreen (c : LayoutCfg) (scrollX : ℚ) (i : ℕ) : ℚ :=
  columnStartOnScreen c scrollX i + columnSpacing c / 2

/-- The widened-span bounds check of the resolver loop:
`absoluteX >= (columnStartOnScreen - tolerance) && absoluteX <= (columnEndOnScreen + tolerance)`. -/
def inWidenedSpan (c : LayoutCfg) (scrollX pointerX : ℚ) (i : ℕ) : Bool :=
  decide (columnStartOnScreen c scrollX i - spanTolerance c ≤ pointerX) &&
  decide (pointerX ≤ columnEndOnScreen c scrollX i + spanTolerance c)

/-- `Math.abs(absoluteX - columnCenterOnScreen) <= centerTolerance`. -/
def overColumnCenter (c : LayoutCfg) (scrollX pointerX : ℚ) (i : ℕ) : Bool :=
  decide (|pointerX - columnCenterOnScreen c scrollX i| ≤ centerTolerance c)

/-- The body of the column-detection `for` loop of `handleDragOverColumn`:
carries `closestColumnIndex` (initially `-1`) and `minDistance` (initially
`Infinity`, modelled as `none`), breaks on the first widened-span match, and
otherwise runs the fallback `if (closestColumnIndex === -1)` branch.
Returns `(closestColumnIndex, cardIsOverColumnCenter)`. -/
def resolveGo (c : LayoutCfg) (scrollX pointerX : ℚ) :
    List ℕ → ℤ → Option ℚ → ℤ × Bool
  | [], closest, _ => (closest, false)
  | i :: rest, closest, minD =>
    if inWidenedSpan c scrollX pointerX i then
      ((i : ℤ), overColumnCenter c scrollX pointerX i)
    else if closest = -1 then
      let d := |pointerX - columnCenterOnScreen c scrollX i|
      if (match minD with
          | none => true
          | some m => decide (d < m)) then
        resolveGo c scrollX pointerX rest (i : ℤ) (some d)
      else
        resolveGo c scrollX pointerX rest closest minD
    else
      resolveGo c scrollX pointerX rest closest minD

/-- The resolver of `handleDragOverColumn`: iterate the loop over the
`filteredCats` indices `0 .. n-1` with the source's initial accumulators. -/
def columnUnderPointer (c : LayoutCfg) (n : ℕ) (scrollX pointerX : ℚ) : ℤ × Bool :=
  resolveGo c scrollX pointerX (List.range n) (-1) none

/-! ## Auto-scroll controller state (the kanban screen's refs) -/

/-- `lastScrollDirectionRef` values `'left' | 'right'`. -/
inductive ScrollDir where
  | left
  | right
deriving Repr, DecidableEq

/-- The scroll-related refs of the kanban screen:
`isScrollingRef`, `lastScrollDirectionRef`, `lastScrollTimeRef`,
`lastScrolledToIndexRef`, `currentScrollXRef`, `currentDragXRef`, the
anonymous 500ms `setTimeout` that resets `isScrollingRef` (`scrollTimer`,
holding its expiry time), and `scrollTimeoutRef`, the 550ms re-check
timeout (`checkTimer`). -/
structure ScrollState where
  isScrolling : Bool
  lastScrollDirection : Option ScrollDir
  lastScrollTime : ℚ
  lastScrolledToIndex : ℤ
  currentScrollX : ℚ
  currentDragX : ℚ
  scrollTimer : Option ℚ
  checkTimer : Option ℚ
deriving Repr, DecidableEq

/-- Initial values of the refs when the screen mounts. -/
def initScrollState : ScrollState :=
  { isScrolling := false
    lastScrollDirection := none
    lastScrollTime := 0
    lastScrolledToIndex := -1
    currentScrollX := 0
    currentDragX := 0
    scrollTimer := none
    checkTimer := none }

/-- `getCenteredCategoryIndex`: the column whose span contains the screen's
horizontal midpoint in content coordinates, clamped to
`[0, visibleCategories.length - 1]` via `Math.max(0, Math.min(_, len - 1))`. -/
def getCenteredCategoryIndex (c : LayoutCfg) (n : ℕ) (scrollX : ℚ) : ℤ :=
  let screenCenterInContent := scrollX + screenCenter c
  let relativeCenterX := screenCenterInContent - boardPadding
  let centeredIndex := Int.floor (relativeCenterX / columnSpacing c)
  max 0 (min centeredIndex ((n : ℤ) - 1))

/-- `scrollToCategory` as it affects `currentScrollXRef`: bounds-check the
index, compute `targetX = columnCenter - screenCenter` for the column's
content-space center `boardPadding + i * columnSpacing + spacing.sm +
COLUMN_WIDTH / 2`, and store `Math.max(0, targetX)`. -/
def scrollToCategory (c : LayoutCfg) (n : ℕ) (idx : ℤ) (scrollX : ℚ) : ℚ :=
  if idx < 0 ∨ (n : ℤ) ≤ idx then scrollX
  else
    max 0 (boardPadding + (idx : ℚ) * columnSpacing c + spacingSm + c.columnWidth / 2
            - screenCenter c)

/-- `scrollBasedOnScreenPosition`, called at time `t` (`Date.now()`) with the
pointer's `absoluteX`.  Returns the updated refs and `some target` exactly
when a scroll trigger fires (the branch that sets `isScrollingRef`, the
bookkeeping refs, calls `scrollToCategory` and arms the 500ms reset
`setTimeout`). -/
def scrollBasedOnScreenPosition (c : LayoutCfg) (n : ℕ) (t absoluteX : ℚ)
    (s : ScrollState) : ScrollState × Option ℤ :=
  if s.isScrolling then (s, none)
  else
    let isNearRightEdge := decide (c.screenWidth - edgeThreshold c < absoluteX)
    let isNearLeftEdge := decide (absoluteX < edgeThreshold c)
    if !isNearRightEdge && !isNearLeftEdge then (s, none)
    else
      let centeredCategoryIndex := getCenteredCategoryIndex c n s.currentScrollX
      let chosen : Option (ℤ × ScrollDir) :=
        if isNearRightEdge then
          let nextIndex := centeredCategoryIndex + 1
          if (n : ℤ) ≤ nextIndex then none else some (nextIndex, ScrollDir.right)
        else
          let prevIndex := centeredCategoryIndex - 1
          if prevIndex < 0 then none else some (prevIndex, ScrollDir.left)
      match chosen with
      | none => (s, none)
      | some (targetCategoryIndex, scrollDirection) =>
        if targetCategoryIndex = centeredCategoryIndex then (s, none)
        else if s.lastScrolledToIndex = targetCategoryIndex ∧ s.isScrolling then (s, none)
        else if 500 ≤ t - s.lastScrollTime then
          ({ s with
              isScrolling := true
              lastScrollDirection := some scrollDirection
              lastScrollTime := t
              lastScrolledToIndex := targetCategoryIndex
              currentScrollX := scrollToCategory c n targetCategoryIndex s.currentScrollX
              scrollTimer := some (t + 500) },
           some targetCategoryIndex)
        else (s, none)

/-- The reset phase of `handleDragOverColumn`: when the card sits over a
column center away from the edges, clear the direction/time/index
bookkeeping (only while no scroll is in flight) and cancel the pending
re-check `setTimeout`. -/
def dragOverReset (c : LayoutCfg) (n : ℕ) (absoluteX : ℚ)
    (s : ScrollState) : ScrollState :=
  let resolved := columnUnderPointer c n s.currentScrollX absoluteX
  let cardIsOverColumnCenter := resolved.2
  let isNearRightEdge := decide (c.screenWidth - edgeThreshold c < absoluteX)
  let isNearLeftEdge := decide (absoluteX < edgeThreshold c)
  let isNearEdge := isNearRightEdge || isNearLeftEdge
  if cardIsOverColumnCenter && !isNearEdge then
    let s' :=
      if !s.isScrolling then
        { s with
            lastScrollDirection := none
            lastScrollTime := 0
            lastScrolledToIndex := -1 }
      else s
    { s' with checkTimer := none }
  else s

/-- The scroll-relevant part of `handleDragOverColumn` (the reset phase
above, and the edge-triggered auto-scroll with its 550ms re-check
`setTimeout`).  The column-resolution return value of the handler is
covered by `columnUnderPointer`; `dragOverReset` threads its
`cardIsOverColumnCenter` output into the ref updates. -/
def dragOverColumnScroll (c : LayoutCfg) (n : ℕ) (t absoluteX : ℚ)
    (s : ScrollState) : ScrollState × Option ℤ :=
  let s1 := dragOverReset c n absoluteX s
  let isNearRightEdge := decide (c.screenWidth - edgeThreshold c < absoluteX)
  let isNearLeftEdge := decide (absoluteX < edgeThreshold c)
  if (isNearRightEdge || isNearLeftEdge) && !s1.isScrolling then
    let r := scrollBasedOnScreenPosition c n t absoluteX s1
    ({ r.1 with checkTimer := some (t + 550) }, r.2)
  else
    ({ s1 with checkTimer := none }, none)

/-- The 550ms `setTimeout` callback armed by `handleDragOverColumn`: when the
timer is due, it is consumed; if no scroll is in flight and the last known
drag position (`currentDragXRef`) is still near an edge it re-invokes
`scrollBasedOnScreenPosition`. -/
def recheckFire (c : LayoutCfg) (n : ℕ) (t : ℚ) (s : ScrollState) :
    ScrollState × Option ℤ :=
  match s.checkTimer with
  | some expiry =>
    if expiry ≤ t then
      let s0 := { s with checkTimer := none }
      if !s0.isScrolling then
        let latestDragX := s0.currentDragX
        let stillNearRight := decide (c.screenWidth - edgeThreshold c < latestDragX)
        let stillNearLeft := decide (latestDragX < edgeThreshold c)
        if stillNearRight || stillNearLeft then
          scrollBasedOnScreenPosition c n t latestDragX s0
        else (s0, none)
      else (s0, none)
    else (s, none)
  | none => (s, none)

/-- The anonymous 500ms `setTimeout` of `scrollBasedOnScreenPosition`: when
due, it clears `isScrollingRef`. -/
def scrollTimerFire (t : ℚ) (s : ScrollState) : ScrollState × Option ℤ :=
  match s.scrollTimer with
  | some expiry =>
    if expiry ≤ t then ({ s with isScrolling := false, scrollTimer := none }, none)
    else (s, none)
  | none => (s, none)

/-- Events of one drag session that touch the scroll refs: a pointer-position
update (`handleDragUpdate` writing `currentDragXRef`), a throttled
drag-over invocation (`handleDragOverColumn` at ~20Hz), the 550ms re-check
timer, and the 500ms scroll-reset timer. -/
inductive DragEv where
  | move (t x : ℚ)
  | over (t x : ℚ)
  | recheck (t : ℚ)
  | timerDone (t : ℚ)
deriving Repr, DecidableEq

/-- Timestamp of an event. -/
def evTime : DragEv → ℚ
  | .move t _ => t
  | .over t _ => t
  | .recheck t => t
  | .timerDone t => t

/-- One step of the drag session's scroll bookkeeping; `some target` marks an
auto-scroll trigger. -/
def dragStep (c : LayoutCfg) (n : ℕ) (s : ScrollState) : DragEv → ScrollState × Option ℤ
  | .move _ x => ({ s with currentDragX := x }, none)
  | .over t x => dragOverColumnScroll c n t x s
  | .recheck t => recheckFire c n t s
  | .timerDone t => scrollTimerFire t s

/-- The timestamps at which auto-scroll triggers fire along a run. -/
def runTriggers (c : LayoutCfg) (n : ℕ) (s : ScrollState) : List DragEv → List ℚ
  | [] => []
  | e :: es =>
    let r := dragStep c n s e
    match r.2 with
    | some _ => evTime e :: runTriggers c n r.1 es
    | none => runTriggers c n r.1 es

/-! ## Products, search filters and column sorting (the kanban screen) -/

/-- `SavedProduct` from `services/api`.  `category` and `createdAt` are
optional on the wire; `createdAt` is an ISO timestamp string whose
`new Date(_).getTime()` value we model directly as epoch milliseconds. -/
structure SavedProduct where
  _id : Option String
  material : ℤ
  barcode : String
  description : String
  category : Option String
  createdAt : Option ℤ
deriving Repr, DecidableEq

/-- The pervasive `product.category || 'Uncategorized'` normalization:
a missing or empty category reads as `"Uncategorized"`. -/
def normalizeCategory (c : Option String) : String :=
  match c with
  | none => "Uncategorized"
  | some s => if s = "" then "Uncategorized" else s

/-- `newCategory || 'Uncategorized'` applied to the (non-optional) drop
target string in `handleProductDrop`. -/
def normalizeTarget (t : String) : String :=
  if t = "" then "Uncategorized" else t

/-- Model of JavaScript `s.trim()`: strip whitespace from both ends. -/
def jsTrim (s : String) : String :=
  String.mk (((s.toList.dropWhile Char.isWhitespace).reverse.dropWhile
    Char.isWhitespace).reverse)

/-- Model of JavaScript `s.toLowerCase()`: lowercase every character. -/
def jsToLower (s : String) : String :=
  String.mk (s.toList.map Char.toLower)

/-- Lexicographic order on character lists, the order underlying the
`localeCompare` model below. -/
def charListLt : List Char → List Char → Bool
  | [], [] => false
  | [], _ :: _ => true
  | _ :: _, [] => false
  | a :: as, b :: bs => if a < b then true else if b < a then false else charListLt as bs

/-- JavaScript `hay.includes(needle)`: substring containment. -/
def strIncludes (hay needle : String) : Bool :=
  decide (needle.toList <:+: hay.toList)

/-- `filterProductsBySearch`: keep products whose material, barcode or
description contains the lowercased, trimmed query. -/
def filterProductsBySearch (productList : List SavedProduct) (query : String) :
    List SavedProduct :=
  if jsTrim query = "" then productList
  else
    let lowerQuery := jsTrim (jsToLower query)
    productList.filter fun p =>
      strIncludes (jsToLower (toString p.material)) lowerQuery ||
      strIncludes (jsToLower p.barcode) lowerQuery ||
      strIncludes (jsToLower p.description) lowerQuery

/-- The kanban screen's filter-relevant state:
`products`, `categories`, `searchQuery`, `selectedCategory`. -/
structure KanbanState where
  products : List SavedProduct
  categories : List String
  searchQuery : String
  selectedCategory : Option String
deriving Repr, DecidableEq

/-- `getFilteredProducts`: apply the category filter (when selected), then
the search filter (when the query is nonempty). -/
def getFilteredProducts (st : KanbanState) : List SavedProduct :=
  let filteredProducts := st.products
  let filteredProducts :=
    match st.selectedCategory with
    | some c => filteredProducts.filter fun p => normalizeCategory p.category = c
    | none => filteredProducts
  if jsTrim st.searchQuery ≠ "" then
    filterProductsBySearch filteredProducts st.searchQuery
  else filteredProducts

/-- `getFilteredCategories`: with no active filter, all categories; with a
filter, only the categories (in original order) that still own a visible
product. -/
def getFilteredCategories (st : KanbanState) : List String :=
  if jsTrim st.searchQuery = "" ∧ st.selectedCategory = none then st.categories
  else
    let filteredProducts := getFilteredProducts st
    st.categories.filter fun cat =>
      filteredProducts.any fun p => normalizeCategory p.category = cat

/-- Model of `a.barcode.localeCompare(b.barcode)`: a three-valued comparison
by the lexicographic string order. -/
def localeCompare (a b : String) : ℤ :=
  if charListLt a.toList b.toList then -1
  else if charListLt b.toList a.toList then 1 else 0

/-- The comparator of `getProductsByCategory`'s `.sort`: when both products
carry a `createdAt`, descending timestamp (`getTime(b) - getTime(a)`);
otherwise the barcode comparison. -/
def productCompare (a b : SavedProduct) : ℤ :=
  match a.createdAt, b.createdAt with
  | some ta, some tb => tb - ta
  | _, _ => localeCompare a.barcode b.barcode

/-- Insert into a sorted list, keeping the inserted element before any later
element that compares equal: the placement a stable sort gives an element
that preceded the rest of the list. -/
def sortInsert (cmp : α → α → ℤ) (a : α) : List α → List α
  | [] => [a]
  | b :: l => if cmp a b ≤ 0 then a :: b :: l else b :: sortInsert cmp a l

/-- Stable sort by a JavaScript-style comparator, modelling the (ES2019+)
stability guarantee of `Array.prototype.sort`. -/
def stableSort (cmp : α → α → ℤ) : List α → List α
  | [] => []
  | a :: l => sortInsert cmp a (stableSort cmp l)

/-- `getProductsByCategory`: the filtered products of one column, sorted by
the comparator above. -/
def getProductsByCategory (st : KanbanState) (category : String) :
    List SavedProduct :=
  stableSort productCompare
    ((getFilteredProducts st).filter fun p => normalizeCategory p.category = category)

/-! ## Category fetch (`fetchCategories`) -/

/-- `fetchCategories`: on success, force `"Uncategorized"` to the front
(removing any fetched occurrence first); on any error, fall back to the
singleton `['Uncategorized']`. -/
def fetchCategoriesModel (res : Except Unit (List String)) : List String :=
  match res with
  | .error _ => ["Uncategorized"]
  | .ok fetchedCategories =>
    if fetchedCategories.contains "Uncategorized" then
      "Uncategorized" :: fetchedCategories.filter (fun cat => cat ≠ "Uncategorized")
    else
      "Uncategorized" :: fetchedCategories

/-! ## Board commit logic (`handleProductDrop` and friends) -/

/-- Externally visible actions of the board controller, in program order:
the `PATCH` issued by `updateProductCategory`, the local `setProducts`
mutation, the two refetches, and user-facing alerts. -/
inductive BoardAction where
  | patchProductCategory (id : String) (category : String)
  | setProductsLocal (ps : List SavedProduct)
  | getCategoriesRequest
  | getProductsRequest
  | alertError (msg : String)
deriving Repr, DecidableEq

/-- Board-controller state touched by a drop commit. -/
structure BoardState where
  products : List SavedProduct
  categories : List String
  updating : Option String
deriving Repr, DecidableEq

/-- `fetchProducts(false)`: issue the refetch; replace the list on success,
alert on failure (the list keeps its previous value). -/
def fetchProductsModel (s : BoardState) (res : Except Unit (List SavedProduct)) :
    List BoardAction × BoardState :=
  match res with
  | .ok fetched => ([.getProductsRequest], { s with products := fetched })
  | .error _ => ([.getProductsRequest, .alertError "Failed to load products"], s)

/-- `handleProductDrop`, with the outcomes of the awaited calls supplied as
parameters.  The returned action list is in the source's program order;
the returned state reflects the handler having run to completion
(including the `finally setUpdating(null)`).  The `handleDragEnd` calls on
every path act on the drag session (see `GestureState` below), not on
these fields. -/
def handleProductDrop (s : BoardState) (product : SavedProduct)
    (newCategory : String) (patchRes : Except Unit Unit)
    (catsRes : Except Unit (List String))
    (prodsRes : Except Unit (List SavedProduct)) :
    List BoardAction × BoardState :=
  let currentCategory := normalizeCategory product.category
  let targetCategory := normalizeTarget newCategory
  if currentCategory = targetCategory then ([], s)
  else
    match product._id with
    | none => ([.alertError "Product ID is missing"], { s with updating := none })
    | some pid =>
      match patchRes with
      | .ok _ =>
        let newProducts := s.products.map fun p =>
          if p._id = some pid then { p with category := some targetCategory } else p
        ([.patchProductCategory pid targetCategory,
          .setProductsLocal newProducts,
          .getCategoriesRequest],
         { s with
             products := newProducts
             categories := fetchCategoriesModel catsRes
             updating := none })
      | .error _ =>
        let refetch := fetchProductsModel s prodsRes
        ([.patchProductCategory pid targetCategory,
          .alertError "Failed to update product category"] ++ refetch.1,
         { refetch.2 with updating := none })

/-- Does the action list contain a local products-list mutation? -/
def isLocalMutation : BoardAction → Bool
  | .setProductsLocal _ => true
  | _ => false

/-- Does the action list contain the category `PATCH`? -/
def isPatchCall : BoardAction → Bool
  | .patchProductCategory _ _ => true
  | _ => false

/-- Some local list mutation occurs strictly before some `PATCH` call. -/
def mutationBeforePatch : List BoardAction → Bool
  | [] => false
  | a :: rest => (isLocalMutation a && rest.any isPatchCall) || mutationBeforePatch rest

/-- Some `PATCH` call occurs strictly before some local list mutation. -/
def patchBeforeMutation : List BoardAction → Bool
  | [] => false
  | a :: rest => (isPatchCall a && rest.any isLocalMutation) || patchBeforeMutation rest

/-! ## Drag gesture teardown (`DraggableProduct`'s pan gesture) -/

/-- Per-card drag session state: the reanimated shared values (transform
targets — `withSpring(v)` animates toward `v`, so we record the target),
the `isDragging` / `dragEnabled` shared flags, the `dragging` /
`readyToDrag` React flags, the card's `targetCategoryRef` shared value and
`targetCategory` React state, and the screen-level session state owned by
the board (`draggedProduct`, `dragPosition`,
`draggedProductTargetCategory`, `dragTargetCategory`). -/
structure GestureState where
  translateX : ℚ
  translateY : ℚ
  scale : ℚ
  opacity : ℚ
  isDragging : Bool
  dragEnabled : Bool
  dragging : Bool
  readyToDrag : Bool
  targetCategoryRef : Option String
  targetCategoryState : Option String
  parentDraggedProduct : Option SavedProduct
  parentDragPosition : Option (ℚ × ℚ)
  parentDraggedTargetCategory : Option String
  parentDragTargetCategory : Option String
deriving Repr, DecidableEq

/-- The screen-level part of `handleDragEnd` acting on the drag session
(it additionally resets the scroll refs, covered by `ScrollState`). -/
def handleDragEndG (g : GestureState) : GestureState :=
  { g with
      parentDragTargetCategory := none
      parentDraggedProduct := none
      parentDragPosition := none
      parentDraggedTargetCategory := none }

/-- `handleDragClear`: clear the board's floating-card session state. -/
def handleDragClearG (g : GestureState) : GestureState :=
  { g with
      parentDraggedProduct := none
      parentDragPosition := none
      parentDraggedTargetCategory := none }

/-- `handleDrop` inside `DraggableProduct`: when a target is set, `onDrop`
runs `handleProductDrop`, every branch of which calls `handleDragEnd`
(its board-list effects are covered by `handleProductDrop` above);
otherwise `onDragEnd` is called directly.  Both paths then clear
`targetCategoryRef` and the `targetCategory` React state. -/
def handleDropG (g : GestureState) : GestureState :=
  let g1 :=
    match g.targetCategoryRef with
    | some _ => handleDragEndG g
    | none => handleDragEndG g
  { g1 with targetCategoryRef := none, targetCategoryState := none }

/-- The pan gesture's `onEnd`: a no-op unless a drag is in progress;
otherwise spring every transform back to neutral, drop both shared flags
and both React flags, clear the floating card, and run `handleDrop`. -/
def panOnEnd (g : GestureState) : GestureState :=
  if g.isDragging = false then g
  else
    let g1 :=
      { g with
          translateX := 0
          translateY := 0
          scale := 1
          opacity := 1
          isDragging := false
          dragEnabled := false
          dragging := false
          readyToDrag := false }
    handleDropG (handleDragClearG g1)

/-- The pan gesture's `onFinalize`: a defensive reset that runs after
`onEnd`.  The gesture system delivers `onEnd` (with `success = false` on
cancellation/interruption, a flag this pan's handler ignores) before
`onFinalize` for every gesture that reached the ACTIVE state — and
`isDragging` is set only in the pan's `onStart`, i.e. only once ACTIVE —
so by the time `onFinalize` runs, `onEnd` has already cleared
`isDragging` and this body's guard makes it a no-op. -/
def panOnFinalize (g : GestureState) : GestureState :=
  if g.isDragging then
    let g1 :=
      { g with
          translateX := 0
          translateY := 0
          scale := 1
          opacity := 1
          isDragging := false
          dragEnabled := false
          dragging := false
          readyToDrag := false }
    handleDragClearG g1
  else g

/-- The long-press gesture's `onEnd`: releasing an armed card that never
started panning drops the armed state and the scale feedback. -/
def longPressOnEnd (g : GestureState) : GestureState :=
  if g.isDragging = false then
    { g with dragEnabled := false, scale := 1, readyToDrag := false }
  else g

/-- Termination of an activated pan gesture — a drop on a target, a release
without a target, or an abnormal cancellation/interruption alike: the
gesture system runs `onEnd` (whose `success` flag the handler ignores),
then `onFinalize`. -/
def gestureEndPath (g : GestureState) : GestureState :=
  panOnFinalize (panOnEnd g)

/-! ## Category deletion guard (`handleDeleteCategory`) -/

/-- Outcome of the client-side delete handler: blocked on the sentinel,
blocked with a counting message, or the confirmation dialog whose
"Delete" button issues the network delete. -/
inductive DeleteOutcome where
  | blockedUncategorized (msg : String)
  | blockedNonEmpty (count : ℕ) (msg : String)
  | confirmDelete (category : String)
deriving Repr, DecidableEq

/-- The blocking message of `handleDeleteCategory`. -/
def deleteBlockMessage (category : String) (n : ℕ) : String :=
  "Move all " ++ toString n ++ " product(s) from \"" ++ category ++
    "\" to another category before deleting."

/-- `handleDeleteCategory`: refuse the sentinel, then count the category's
column as `getProductsByCategory` renders it (note: search/category
filters included), blocking when nonempty; otherwise show the
confirmation dialog. -/
def handleDeleteCategory (st : KanbanState) (category : String) : DeleteOutcome :=
  if category = "Uncategorized" then
    .blockedUncategorized "Cannot delete Uncategorized category"
  else
    let productsInCategory := getProductsByCategory st category
    if 0 < productsInCategory.length then
      .blockedNonEmpty productsInCategory.length
        (deleteBlockMessage category productsInCategory.length)
    else
      .confirmDelete category

/-! ## Scanner flow (`handleBarCodeScanned` / `handleManualSubmit`) -/

/-- Externally visible steps of a scan flow, in program order. -/
inductive ScanAction where
  | checkDb (barcode : String)
  | fetchCatalog (barcode : String)
  | saveDb (barcode : String)
  | alertErr (msg : String)
  | alertWarning (msg : String)
deriving Repr, DecidableEq

/-- Final scanner-screen state of one flow run (the loading / saving /
checking spinner flags all end `false` via the `finally` block and are
omitted). -/
structure ScanResult where
  actions : List ScanAction
  product : Option SavedProduct
  isExisting : Bool
  scanned : Bool
deriving Repr, DecidableEq

/-- The warning shown when the catalog fetch succeeded but the save failed. -/
def scanWarningMessage : String :=
  "Product fetched but could not be saved to database. Please check your connection."

/-- The shared tail of both scan flows once the backend existence check has
not returned an existing product: fetch from the catalog, then try to
save, degrading to the fetched-but-unsaved product plus a warning. -/
def scanFetchAndSave (data : String) (fetchRes : Except String SavedProduct)
    (saveRes : Except Unit SavedProduct) : ScanResult :=
  match fetchRes with
  | .error msg =>
    { actions := [.checkDb data, .fetchCatalog data, .alertErr msg]
      product := none
      isExisting := false
      scanned := false }
  | .ok externalProduct =>
    match saveRes with
    | .ok savedProduct =>
      { actions := [.checkDb data, .fetchCatalog data, .saveDb data]
        product := some savedProduct
        isExisting := false
        scanned := true }
    | .error _ =>
      { actions := [.checkDb data, .fetchCatalog data, .saveDb data,
                    .alertWarning scanWarningMessage]
        product := some { externalProduct with category := some "Uncategorized" }
        isExisting := false
        scanned := true }

/-- The common body of both scan flows: the backend existence check either
finds the product (shown as existing), finds nothing, or throws — and a
throw falls through to the catalog fetch exactly like a miss. -/
def scanCore (data : String) (checkRes : Except Unit (Option SavedProduct))
    (fetchRes : Except String SavedProduct)
    (saveRes : Except Unit SavedProduct) : ScanResult :=
  match checkRes with
  | .ok (some existingProduct) =>
    { actions := [.checkDb data]
      product := some existingProduct
      isExisting := true
      scanned := true }
  | .ok none => scanFetchAndSave data fetchRes saveRes
  | .error _ => scanFetchAndSave data fetchRes saveRes

/-- `handleBarCodeScanned`: ignore re-entrant scans (`busy` folds the
`scanned || loading || saving || checking` guard) and non-numeric
barcodes, then run the flow.  `none` marks a run that never started. -/
def handleBarCodeScanned (data : String) (busy : Bool)
    (checkRes : Except Unit (Option SavedProduct))
    (fetchRes : Except String SavedProduct)
    (saveRes : Except Unit SavedProduct) : Option ScanResult :=
  if busy then none
  else if data = "" ∨ ¬ data.toList.all Char.isDigit then none
  else some (scanCore data checkRes fetchRes saveRes)

/-- `handleManualSubmit`: an empty (trimmed) barcode only alerts
("Please enter a barcode") and never starts the flow (returned as `none`);
otherwise the trimmed barcode runs the same flow as a scan, with no digit
check and no busy guard. -/
def handleManualSubmit (manualBarcode : String)
    (checkRes : Except Unit (Option SavedProduct))
    (fetchRes : Except String SavedProduct)
    (saveRes : Except Unit SavedProduct) : Option ScanResult :=
  if jsTrim manualBarcode = "" then none
  else some (scanCore (jsTrim manualBarcode) checkRes fetchRes saveRes)

/-! ## Concrete instances used by counterexamples and witnesses -/

/-- A medium phone: `SCREEN_WIDTH = 400`, so `COLUMN_WIDTH = 300`. -/
def cfgA : LayoutCfg := ⟨400, 300⟩

/-- A product with the lexicographically larger barcode, listed first. -/
def pTieB : SavedProduct :=
  { _id := some "1", material := 1, barcode := "B", description := "x",
    category := none, createdAt := some 100 }

/-- A product created at the same instant, with the smaller barcode. -/
def pTieA : SavedProduct :=
  { _id := some "2", material := 2, barcode := "A", description := "y",
    category := none, createdAt := some 100 }

/-- A board with the two tied products and no active filters. -/
def stTie : KanbanState :=
  { products := [pTieB, pTieA], categories := ["Uncategorized"],
    searchQuery := "", selectedCategory := none }

/-- A product living in the `"Snacks"` category. -/
def pSnack : SavedProduct :=
  { _id := some "s1", material := 5, barcode := "111", description := "Chips",
    category := some "Snacks", createdAt := some 50 }

/-- A board whose search query matches nothing, hiding `pSnack`. -/
def stHidden : KanbanState :=
  { products := [pSnack], categories := ["Uncategorized", "Snacks"],
    searchQuery := "zzz", selectedCategory := none }

/-- An uncategorized product about to be dropped on `"Snacks"`. -/
def pDrop : SavedProduct :=
  { _id := some "p1", material := 7, barcode := "8901012116340",
    description := "Bar", category := none, createdAt := some 10 }

/-- The board before the drop of `pDrop`. -/
def sBoard : BoardState :=
  { products := [pDrop], categories := ["Uncategorized", "Snacks"],
    updating := none }

/-- A drag session in flight over the `"Snacks"` column. -/
def gDrag : GestureState :=
  { translateX := 40, translateY := -12, scale := 6/5, opacity := 0,
    isDragging := true, dragEnabled := true, dragging := true,
    readyToDrag := true, targetCategoryRef := some "Snacks",
    targetCategoryState := some "Snacks", parentDraggedProduct := some pDrop,
    parentDragPosition := some (390, 200),
    parentDraggedTargetCategory := some "Snacks",
    parentDragTargetCategory := some "Snacks" }

/-- Scroll refs right before an auto-scroll trigger: idle, pointer at the
right edge. -/
def sScrollW : ScrollState := { initScrollState with currentDragX := 390 }

/-- A drag trace with two edge holds separated by the reset timer. -/
def esW : List DragEv := [.over 1000 390, .timerDone 1500, .over 1600 390]

/-! ## Theorems -/

/-- C10: on any failure of `getAllCategories` the list collapses to exactly
`["Uncategorized"]`; on any success the result starts with
`"Uncategorized"` and contains it exactly once. -/
theorem fetchCategories_fallback_and_shape :
    fetchCategoriesModel (Except.error ()) = ["Uncategorized"] ∧
    ∀ l : List String,
      (fetchCategoriesModel (Except.ok l)).head? = some "Uncategorized" ∧
      (fetchCategoriesModel (Except.ok l)).count "Uncategorized" = 1 := by
  refine ⟨rfl, fun l => ⟨?_, ?_⟩⟩
  · show (if l.contains "Uncategorized" then
        "Uncategorized" :: l.filter (fun cat => cat ≠ "Uncategorized")
      else "Uncategorized" :: l).head? = some "Uncategorized"
    split <;> rfl
  · show List.count "Uncategorized" (if l.contains "Uncategorized" then
        "Uncategorized" :: l.filter (fun cat => cat ≠ "Uncategorized")
      else "Uncategorized" :: l) = 1
    split
    · next h =>
      rw [List.count_cons_self]
      have hmem : "Uncategorized" ∉ l.filter (fun cat => cat ≠ "Uncategorized") := by
        simp
      rw [List.count_eq_zero.mpr hmem]
    · next h =>
      rw [List.count_cons_self]
      have hmem : "Uncategorized" ∉ l := by
        simpa using h
      rw [List.count_eq_zero.mpr hmem]

/-- C9: a throwing backend existence check is indistinguishable from a miss
(the flow continues transparently to the catalog fetch, in both the
scanner and the manual path), and a successful catalog fetch followed by a
failed save still displays the fetched product with category
`"Uncategorized"` together with the warning alert. -/
theorem scanFlow_errorTolerance :
    (∀ (data : String) (busy : Bool) (fetchRes : Except String SavedProduct)
       (saveRes : Except Unit SavedProduct),
       handleBarCodeScanned data busy (Except.error ()) fetchRes saveRes =
         handleBarCodeScanned data busy (Except.ok none) fetchRes saveRes) ∧
    (∀ (manualBarcode : String) (fetchRes : Except String SavedProduct)
       (saveRes : Except Unit SavedProduct),
       handleManualSubmit manualBarcode (Except.error ()) fetchRes saveRes =
         handleManualSubmit manualBarcode (Except.ok none) fetchRes saveRes) ∧
    (∀ (data : String) (checkRes : Except Unit (Option SavedProduct))
       (externalProduct : SavedProduct),
       (∀ p, checkRes ≠ Except.ok (some p)) →
       (scanCore data checkRes (Except.ok externalProduct) (Except.error ())).product =
           some { externalProduct with category := some "Uncategorized" } ∧
       ScanAction.alertWarning scanWarningMessage ∈
         (scanCore data checkRes (Except.ok externalProduct) (Except.error ())).actions ∧
       ScanAction.fetchCatalog data ∈
         (scanCore data checkRes (Except.ok externalProduct) (Except.error ())).actions) := by
  refine ⟨fun data busy fetchRes saveRes => rfl,
          fun manualBarcode fetchRes saveRes => rfl,
          fun data checkRes externalProduct hmiss => ?_⟩
  match checkRes with
  | .ok (some p) => exact absurd rfl (hmiss p)
  | .ok none => simp [scanCore, scanFetchAndSave]
  | .error _ => simp [scanCore, scanFetchAndSave]

/-- Witness for `scanFlow_errorTolerance`: the save-failure degradation at a
concrete product and a throwing check. -/
theorem scanFlow_errorTolerance_witness :
    (scanCore "8901012116340" (Except.error ()) (Except.ok pDrop)
        (Except.error ())).product = some { pDrop with category := some "Uncategorized" } ∧
    ScanAction.alertWarning scanWarningMessage ∈
      (scanCore "8901012116340" (Except.error ()) (Except.ok pDrop)
        (Except.error ())).actions ∧
    ScanAction.fetchCatalog "8901012116340" ∈
      (scanCore "8901012116340" (Except.error ()) (Except.ok pDrop)
        (Except.error ())).actions :=
  scanFlow_errorTolerance.2.2 "8901012116340" (Except.error ()) pDrop
    (fun p h => by cases h)

/-- C4: dropping a product onto its own (normalized) current category
commits nothing — no action at all is issued, the board state is returned
unchanged — and the drop path's teardown clears only the transient drag
session (target refs and the board's floating-card state). -/
theorem sameCategoryDrop_noop (s : BoardState) (product : SavedProduct)
    (newCategory : String) (patchRes : Except Unit Unit)
    (catsRes : Except Unit (List String))
    (prodsRes : Except Unit (List SavedProduct)) (g : GestureState)
    (h : normalizeTarget newCategory = normalizeCategory product.category) :
    handleProductDrop s product newCategory patchRes catsRes prodsRes = ([], s) ∧
    (handleDropG g).targetCategoryRef = none ∧
    (handleDropG g).targetCategoryState = none ∧
    (handleDropG g).parentDraggedProduct = none ∧
    (handleDropG g).parentDragPosition = none ∧
    (handleDropG g).parentDraggedTargetCategory = none ∧
    (handleDropG g).parentDragTargetCategory = none := by
  refine ⟨?_, ?_, ?_, ?_, ?_, ?_, ?_⟩
  · unfold handleProductDrop
    simp [h]
  all_goals
    cases htr : g.targetCategoryRef <;>
      simp [handleDropG, htr, handleDragEndG]

/-- Witness for `sameCategoryDrop_noop`: dropping the uncategorized `pDrop`
back onto an empty target string (normalized to `"Uncategorized"`). -/
theorem sameCategoryDrop_noop_witness :
    handleProductDrop sBoard pDrop "" (Except.ok ()) (Except.ok [])
        (Except.ok []) = ([], sBoard) ∧
    (handleDropG gDrag).targetCategoryRef = none ∧
    (handleDropG gDrag).targetCategoryState = none ∧
    (handleDropG gDrag).parentDraggedProduct = none ∧
    (handleDropG gDrag).parentDragPosition = none ∧
    (handleDropG gDrag).parentDraggedTargetCategory = none ∧
    (handleDropG gDrag).parentDragTargetCategory = none :=
  sameCategoryDrop_noop sBoard pDrop "" (Except.ok ()) (Except.ok [])
    (Except.ok []) gDrag (by decide)

/-- C2 counterexample: a concrete successful cross-category drop issues both
a `PATCH` and a local list mutation, but no local mutation precedes the
`PATCH` — the handler awaits the network call before touching the list,
so the claimed optimistic (mutate-first) ordering is false. -/
theorem optimisticUpdate_counterexample :
    (handleProductDrop sBoard pDrop "Snacks" (Except.ok ())
        (Except.ok ["Uncategorized", "Snacks"]) (Except.ok [])).1.any
        isPatchCall = true ∧
    (handleProductDrop sBoard pDrop "Snacks" (Except.ok ())
        (Except.ok ["Uncategorized", "Snacks"]) (Except.ok [])).1.any
        isLocalMutation = true ∧
    mutationBeforePatch (handleProductDrop sBoard pDrop "Snacks" (Except.ok ())
        (Except.ok ["Uncategorized", "Snacks"]) (Except.ok [])).1 = false := by
  refine ⟨rfl, rfl, rfl⟩

/-- C2 (amended): the in-memory list is updated only after the `PATCH`
resolves.  On success the `PATCH` action strictly precedes the local list
mutation (and never the other way around); on failure the list is never
locally mutated — the handler alerts and issues a full product refetch. -/
theorem patchPrecedesLocalMutation (s : BoardState) (product : SavedProduct)
    (newCategory : String) (pid : String)
    (catsRes : Except Unit (List String))
    (prodsRes : Except Unit (List SavedProduct))
    (hid : product._id = some pid)
    (hne : normalizeCategory product.category ≠ normalizeTarget newCategory) :
    (patchBeforeMutation
        (handleProductDrop s product newCategory (Except.ok ()) catsRes prodsRes).1 = true ∧
     mutationBeforePatch
        (handleProductDrop s product newCategory (Except.ok ()) catsRes prodsRes).1 = false) ∧
    ((handleProductDrop s product newCategory (Except.error ()) catsRes prodsRes).1.any
        isLocalMutation = false ∧
     BoardAction.getProductsRequest ∈
       (handleProductDrop s product newCategory (Except.error ()) catsRes prodsRes).1 ∧
     BoardAction.alertError "Failed to update product category" ∈
       (handleProductDrop s product newCategory (Except.error ()) catsRes prodsRes).1) := by
  constructor
  · unfold handleProductDrop
    simp only [if_neg hne, hid]
    constructor
    · simp [patchBeforeMutation, isPatchCall, isLocalMutation]
    · simp [mutationBeforePatch, isPatchCall, isLocalMutation]
  · unfold handleProductDrop
    simp only [if_neg hne, hid]
    cases prodsRes <;>
      simp [fetchProductsModel, isLocalMutation]

/-- Witness for `patchPrecedesLocalMutation`: the concrete drop of `pDrop`
onto `"Snacks"`. -/
theorem patchPrecedesLocalMutation_witness :
    (patchBeforeMutation
        (handleProductDrop sBoard pDrop "Snacks" (Except.ok ())
          (Except.ok ["Uncategorized", "Snacks"]) (Except.ok [])).1 = true ∧
     mutationBeforePatch
        (handleProductDrop sBoard pDrop "Snacks" (Except.ok ())
          (Except.ok ["Uncategorized", "Snacks"]) (Except.ok [])).1 = false) ∧
    ((handleProductDrop sBoard pDrop "Snacks" (Except.error ())
        (Except.ok ["Uncategorized", "Snacks"]) (Except.ok [])).1.any
        isLocalMutation = false ∧
     BoardAction.getProductsRequest ∈
       (handleProductDrop sBoard pDrop "Snacks" (Except.error ())
         (Except.ok ["Uncategorized", "Snacks"]) (Except.ok [])).1 ∧
     BoardAction.alertError "Failed to update product category" ∈
       (handleProductDrop sBoard pDrop "Snacks" (Except.error ())
         (Except.ok ["Uncategorized", "Snacks"]) (Except.ok [])).1) :=
  patchPrecedesLocalMutation sBoard pDrop "Snacks" "p1"
    (Except.ok ["Uncategorized", "Snacks"]) (Except.ok []) (by decide) (by decide)

/-- C7: after every termination of an active drag — a drop on a target, a
release without a target, or an abnormal cancellation/interruption — the
drag session is fully cleared: the dragging and drag-enabled flags are
false, both React flags are down, the target-category ref and state are
null, the board's floating-card session state is cleared, and the card's
transform targets return to neutral (translate 0,0, scale 1, opacity 1).
All three termination kinds run the same `onEnd`-then-`onFinalize`
sequence (`isDragging` is set only once the pan is ACTIVE, and an ACTIVE
gesture's cancellation still delivers `onEnd`, with `success = false`),
so no dangling armed or dragging flag can remain. -/
theorem dragTeardown_reset (g : GestureState) (h : g.isDragging = true) :
    (gestureEndPath g).translateX = 0 ∧ (gestureEndPath g).translateY = 0 ∧
    (gestureEndPath g).scale = 1 ∧ (gestureEndPath g).opacity = 1 ∧
    (gestureEndPath g).isDragging = false ∧ (gestureEndPath g).dragEnabled = false ∧
    (gestureEndPath g).dragging = false ∧ (gestureEndPath g).readyToDrag = false ∧
    (gestureEndPath g).targetCategoryRef = none ∧
    (gestureEndPath g).targetCategoryState = none ∧
    (gestureEndPath g).parentDraggedProduct = none ∧
    (gestureEndPath g).parentDragPosition = none ∧
    (gestureEndPath g).parentDraggedTargetCategory = none ∧
    (gestureEndPath g).parentDragTargetCategory = none := by
  cases htr : g.targetCategoryRef <;>
    simp [gestureEndPath, panOnEnd, panOnFinalize, h, handleDropG, htr,
      handleDragEndG, handleDragClearG]

/-- Witness for `dragTeardown_reset`: the in-flight session `gDrag`. -/
theorem dragTeardown_reset_witness :
    (gestureEndPath gDrag).translateX = 0 ∧ (gestureEndPath gDrag).translateY = 0 ∧
    (gestureEndPath gDrag).scale = 1 ∧ (gestureEndPath gDrag).opacity = 1 ∧
    (gestureEndPath gDrag).isDragging = false ∧
    (gestureEndPath gDrag).dragEnabled = false ∧
    (gestureEndPath gDrag).dragging = false ∧
    (gestureEndPath gDrag).readyToDrag = false ∧
    (gestureEndPath gDrag).targetCategoryRef = none ∧
    (gestureEndPath gDrag).targetCategoryState = none ∧
    (gestureEndPath gDrag).parentDraggedProduct = none ∧
    (gestureEndPath gDrag).parentDragPosition = none ∧
    (gestureEndPath gDrag).parentDraggedTargetCategory = none ∧
    (gestureEndPath gDrag).parentDragTargetCategory = none :=
  dragTeardown_reset gDrag rfl

/-- C8 counterexample: the guard counts the category's column as rendered
under the active filters, not the category's actual contents.  With a
search query matching nothing, `"Snacks"` still contains `pSnack`, yet the
handler proceeds to the confirmation dialog that issues the delete. -/
theorem deleteGuard_counterexample :
    (stHidden.products.filter
        (fun p => normalizeCategory p.category = "Snacks")).length = 1 ∧
    handleDeleteCategory stHidden "Snacks" = DeleteOutcome.confirmDelete "Snacks" := by
  refine ⟨rfl, rfl⟩

/-- C8 (amended): no delete request is issued for the `"Uncategorized"`
sentinel, nor when the category's column under the active search/category
filters is nonempty; in the latter case the blocking message names the
exact number of currently visible products of the category. -/
theorem deleteGuard_blocks (st : KanbanState) (category : String) :
    (category = "Uncategorized" →
      handleDeleteCategory st category =
        DeleteOutcome.blockedUncategorized "Cannot delete Uncategorized category") ∧
    (category ≠ "Uncategorized" →
      0 < (getProductsByCategory st category).length →
      handleDeleteCategory st category =
        DeleteOutcome.blockedNonEmpty (getProductsByCategory st category).length
          (deleteBlockMessage category (getProductsByCategory st category).length) ∧
      strIncludes
        (deleteBlockMessage category (getProductsByCategory st category).length)
        (toString (getProductsByCategory st category).length) = true) := by
  constructor
  · intro h
    simp [handleDeleteCategory, h]
  · intro h hn
    refine ⟨by simp [handleDeleteCategory, h, hn], ?_⟩
    rw [strIncludes, decide_eq_true_eq]
    refine ⟨"Move all ".toList,
      (" product(s) from \"" ++ category ++
        "\" to another category before deleting.").toList, ?_⟩
    simp [deleteBlockMessage]

/-- Witness for `deleteGuard_blocks`: deleting the sentinel, and deleting a
`"Snacks"` column rendered with one visible product. -/
theorem deleteGuard_blocks_witness :
    handleDeleteCategory stTie "Uncategorized" =
      DeleteOutcome.blockedUncategorized "Cannot delete Uncategorized category" ∧
    (handleDeleteCategory { stHidden with searchQuery := "" } "Snacks" =
      DeleteOutcome.blockedNonEmpty
        (getProductsByCategory { stHidden with searchQuery := "" } "Snacks").length
        (deleteBlockMessage "Snacks"
          (getProductsByCategory { stHidden with searchQuery := "" } "Snacks").length) ∧
     strIncludes
       (deleteBlockMessage "Snacks"
         (getProductsByCategory { stHidden with searchQuery := "" } "Snacks").length)
       (toString
         (getProductsByCategory { stHidden with searchQuery := "" } "Snacks").length) =
       true) :=
  ⟨(deleteGuard_blocks stTie "Uncategorized").1 rfl,
   (deleteGuard_blocks { stHidden with searchQuery := "" } "Snacks").2
     (by decide) (by decide)⟩

/-- Inserting preserves the multiset of elements. -/
theorem sortInsert_perm (cmp : α → α → ℤ) (a : α) (l : List α) :
    (sortInsert cmp a l).Perm (a :: l) := by
  induction l with
  | nil => simp [sortInsert]
  | cons b t ih =>
    by_cases h : cmp a b ≤ 0
    · simp [sortInsert, h]
    · simp only [sortInsert, if_neg h]
      exact (ih.cons b).trans (List.Perm.swap a b t)

/-- The stable sort is a permutation of its input. -/
theorem stableSort_perm (cmp : α → α → ℤ) (l : List α) :
    (stableSort cmp l).Perm l := by
  induction l with
  | nil => simp [stableSort]
  | cons a t ih =>
    exact (sortInsert_perm cmp a (stableSort cmp t)).trans (ih.cons a)

/-- The head of an insertion is the inserted element or the old head. -/
theorem sortInsert_headOr (cmp : α → α → ℤ) (a : α) (l : List α) :
    (sortInsert cmp a l).head? = some a ∨ (sortInsert cmp a l).head? = l.head? := by
  cases l with
  | nil => left; rfl
  | cons b t =>
    by_cases h : cmp a b ≤ 0
    · left; simp [sortInsert, h]
    · right; simp [sortInsert, h]

/-- Insertion keeps adjacent pairs ordered, for any total comparator. -/
theorem sortInsert_chain (cmp : α → α → ℤ)
    (htot : ∀ x y, cmp x y ≤ 0 ∨ cmp y x ≤ 0) (a : α) (l : List α)
    (hl : List.Chain' (fun x y => cmp x y ≤ 0) l) :
    List.Chain' (fun x y => cmp x y ≤ 0) (sortInsert cmp a l) := by
  induction l with
  | nil => simp [sortInsert]
  | cons b t ih =>
    by_cases h : cmp a b ≤ 0
    · simp only [sortInsert, if_pos h]
      exact List.chain'_cons.mpr ⟨h, hl⟩
    · simp only [sortInsert, if_neg h]
      have htail := hl.tail
      simp only [List.tail_cons] at htail
      rw [List.chain'_cons']
      refine ⟨?_, ih htail⟩
      intro y hy
      rcases sortInsert_headOr cmp a t with hh | hh
      · rw [hh] at hy
        obtain rfl : a = y := by simpa using hy
        rcases htot a b with h1 | h1
        · exact absurd h1 h
        · exact h1
      · rw [hh] at hy
        exact (List.chain'_cons'.mp hl).1 y hy

/-- Every adjacent pair of the stable sort is comparator-ordered. -/
theorem stableSort_chain (cmp : α → α → ℤ)
    (htot : ∀ x y, cmp x y ≤ 0 ∨ cmp y x ≤ 0) (l : List α) :
    List.Chain' (fun x y => cmp x y ≤ 0) (stableSort cmp l) := by
  induction l with
  | nil => simp [stableSort]
  | cons a t ih => exact sortInsert_chain cmp htot a (stableSort cmp t) ih

/-- The `localeCompare` model never reports both orders as strictly
greater. -/
theorem localeCompare_total (x y : String) :
    localeCompare x y ≤ 0 ∨ localeCompare y x ≤ 0 := by
  cases h1 : charListLt x.data y.data with
  | true => left; simp [localeCompare, h1]
  | false =>
    cases h2 : charListLt y.data x.data with
    | true => right; simp [localeCompare, h2]
    | false => left; simp [localeCompare, h1, h2]

/-- The column comparator is total. -/
theorem productCompare_total (a b : SavedProduct) :
    productCompare a b ≤ 0 ∨ productCompare b a ≤ 0 := by
  rcases hca : a.createdAt with _ | ta <;> rcases hcb : b.createdAt with _ | tb <;>
    simp only [productCompare, hca, hcb] <;>
    first
      | exact localeCompare_total a.barcode b.barcode
      | omega

/-- C3 counterexample: two products created at the same instant are kept in
their backend order, not reordered by barcode — the rendered
`"Uncategorized"` column shows barcode `"B"` before `"A"` although `"A"`
is lexicographically smaller. -/
theorem columnTieOrder_counterexample :
    getProductsByCategory stTie "Uncategorized" = [pTieB, pTieA] ∧
    pTieB.createdAt = pTieA.createdAt ∧
    charListLt pTieA.barcode.toList pTieB.barcode.toList = true := by
  refine ⟨rfl, rfl, rfl⟩

/-- C3 (amended): a rendered column holds exactly the products that match
the column's category (after normalization) and the active filters — as a
permutation of that filtered list — and every adjacent pair satisfies the
comparator: descending `createdAt` when both timestamps are present, and
the barcode comparison otherwise.  Products whose comparator value ties
(equal `createdAt`) are not reordered by barcode. -/
theorem getProductsByCategory_ordered (st : KanbanState) (category : String) :
    (getProductsByCategory st category).Perm
      ((getFilteredProducts st).filter fun p =>
        normalizeCategory p.category = category) ∧
    List.Chain' (fun a b => productCompare a b ≤ 0)
      (getProductsByCategory st category) :=
  ⟨stableSort_perm _ _, stableSort_chain _ productCompare_total _⟩

/-- `find?` over `range n` finds the least index below `n` satisfying `p`. -/
theorem find?_range_eq_some (p : ℕ → Bool) (i n : ℕ)
    (hi : i < n) (hp : p i = true) (hmin : ∀ j, j < i → p j = false) :
    (List.range n).find? p = some i := by
  induction n with
  | zero => omega
  | succ m ih =>
    rw [List.range_succ, List.find?_append]
    rcases Nat.lt_or_ge i m with h | h
    · rw [ih h]
      rfl
    · have him : i = m := by omega
      subst him
      have hl : (List.range i).find? p = none := by
        rw [List.find?_eq_none]
        intro j hj
        simp [hmin j (List.mem_range.mp hj)]
      rw [hl]
      simp [List.find?, hp]

/-- The loop returns whatever index `find?` locates, regardless of the
accumulators. -/
theorem resolveGo_find (c : LayoutCfg) (sx px : ℚ) :
    ∀ (l : List ℕ) (closest : ℤ) (minD : Option ℚ) (i : ℕ),
      l.find? (fun j => inWidenedSpan c sx px j) = some i →
      (resolveGo c sx px l closest minD).1 = (i : ℤ) := by
  intro l
  induction l with
  | nil => intro closest minD i h; simp at h
  | cons a t ih =>
    intro closest minD i h
    rw [List.find?_cons] at h
    cases ha : inWidenedSpan c sx px a with
    | true =>
      rw [ha] at h
      simp only [Option.some.injEq] at h
      subst h
      simp [resolveGo, ha]
    | false =>
      rw [ha] at h
      simp only at h
      simp only [resolveGo, ha, Bool.false_eq_true, if_false]
      split
      · split
        · exact ih _ _ _ h
        · exact ih _ _ _ h
      · exact ih _ _ _ h

/-- Once the accumulator differs from `-1`, a match-free suffix of the loop
never changes it. -/
theorem resolveGo_keep (c : LayoutCfg) (sx px : ℚ) :
    ∀ (l : List ℕ) (closest : ℤ) (minD : Option ℚ),
      closest ≠ -1 → (∀ j ∈ l, inWidenedSpan c sx px j = false) →
      (resolveGo c sx px l closest minD).1 = closest := by
  intro l
  induction l with
  | nil => intro closest minD _ _; rfl
  | cons a t ih =>
    intro closest minD hne hall
    have ha := hall a (by simp)
    simp only [resolveGo, ha, Bool.false_eq_true, if_false, if_neg hne]
    exact ih _ _ hne fun j hj => hall j (List.mem_cons_of_mem a hj)

/-- With a widened-span match present, the resolver returns the least
matching index. -/
theorem columnUnderPointer_firstMatch (c : LayoutCfg) (n : ℕ)
    (scrollX pointerX : ℚ) (i : ℕ) (hi : i < n)
    (hp : inWidenedSpan c scrollX pointerX i = true)
    (hmin : ∀ j, j < i → inWidenedSpan c scrollX pointerX j = false) :
    (columnUnderPointer c n scrollX pointerX).1 = (i : ℤ) :=
  resolveGo_find c scrollX pointerX _ _ _ i
    (find?_range_eq_some _ i n hi hp hmin)

/-- With no widened-span match at all, the resolver returns column `0`: the
fallback stops updating `closestColumnIndex` after the first iteration. -/
theorem columnUnderPointer_noMatch (c : LayoutCfg) (n : ℕ)
    (scrollX pointerX : ℚ) (hn : 0 < n)
    (h : ∀ i, i < n → inWidenedSpan c scrollX pointerX i = false) :
    (columnUnderPointer c n scrollX pointerX).1 = 0 := by
  obtain ⟨m, rfl⟩ : ∃ m, n = m + 1 := ⟨n - 1, by omega⟩
  unfold columnUnderPointer
  rw [List.range_succ_eq_map]
  have h0 := h 0 (by omega)
  simp only [resolveGo, h0, Bool.false_eq_true, if_false, if_pos rfl]
  apply resolveGo_keep
  · decide
  · intro j hj
    obtain ⟨k, hk, rfl⟩ := List.mem_map.mp hj
    exact h (Nat.succ k) (by simpa using List.mem_range.mp hk)

/-- C1 counterexample: widened spans overlap, so a pointer inside column 1's
widened span can still resolve to column 0 (the loop breaks on the first
match); and a pointer outside every widened span resolves to column 0
even when column 1's center is strictly nearer (the fallback stops
tracking after its first assignment). -/
theorem columnUnderPointer_counterexample :
    inWidenedSpan cfgA 0 300 1 = true ∧
    (columnUnderPointer cfgA 2 0 300).1 = 0 ∧
    (inWidenedSpan cfgA 1000 100 0 = false ∧ inWidenedSpan cfgA 1000 100 1 = false) ∧
    (columnUnderPointer cfgA 2 1000 100).1 = 0 ∧
    |(100 : ℚ) - columnCenterOnScreen cfgA 1000 1| <
      |(100 : ℚ) - columnCenterOnScreen cfgA 1000 0| := by
  have hmiss : ∀ i, i < 2 → inWidenedSpan cfgA 1000 100 i = false := by
    intro i hi
    interval_cases i <;>
      norm_num [inWidenedSpan, columnStartOnScreen, columnEndOnScreen,
        columnSpacing, spanTolerance, boardPadding, spacingSm, spacingMd, cfgA]
  have h00 : inWidenedSpan cfgA 0 300 0 = true := by
    norm_num [inWidenedSpan, columnStartOnScreen, columnEndOnScreen,
      columnSpacing, spanTolerance, boardPadding, spacingSm, spacingMd, cfgA]
  refine ⟨?_, ?_, ⟨hmiss 0 (by omega), hmiss 1 (by omega)⟩, ?_, ?_⟩
  · norm_num [inWidenedSpan, columnStartOnScreen, columnEndOnScreen,
      columnSpacing, spanTolerance, boardPadding, spacingSm, spacingMd, cfgA]
  · have : List.range 2 = [0, 1] := rfl
    rw [columnUnderPointer, this]
    simp [resolveGo, h00]
  · exact columnUnderPointer_noMatch cfgA 2 1000 100 (by omega) hmiss
  · norm_num [columnCenterOnScreen, columnStartOnScreen, columnSpacing,
      boardPadding, spacingSm, spacingMd, cfgA]

/-- C1 (amended): the drag-over resolver returns the least column index
whose widened on-screen span contains the pointer; when no widened span
contains it, the resolver returns column 0 (which coincides with the
nearest-center column only when the pointer lies left of all spans). -/
theorem columnUnderPointer_spec (c : LayoutCfg) (n : ℕ) (scrollX pointerX : ℚ) :
    (∀ i : ℕ, i < n → inWidenedSpan c scrollX pointerX i = true →
      (∀ j : ℕ, j < i → inWidenedSpan c scrollX pointerX j = false) →
      (columnUnderPointer c n scrollX pointerX).1 = (i : ℤ)) ∧
    ((∀ i : ℕ, i < n → inWidenedSpan c scrollX pointerX i = false) → 0 < n →
      (columnUnderPointer c n scrollX pointerX).1 = 0) :=
  ⟨fun i hi hp hmin => columnUnderPointer_firstMatch c n scrollX pointerX i hi hp hmin,
   fun h hn => columnUnderPointer_noMatch c n scrollX pointerX hn h⟩

/-- Witness for `columnUnderPointer_spec`: a pointer inside column 0's span,
and a pointer outside all spans after a long scroll. -/
theorem columnUnderPointer_spec_witness :
    (columnUnderPointer cfgA 2 0 300).1 = (0 : ℤ) ∧
    (columnUnderPointer cfgA 2 1000 100).1 = 0 :=
  ⟨(columnUnderPointer_spec cfgA 2 0 300).1 0 (by omega)
      (by norm_num [inWidenedSpan, columnStartOnScreen, columnEndOnScreen,
        columnSpacing, spanTolerance, boardPadding, spacingSm, spacingMd, cfgA])
      (fun j hj => absurd hj (Nat.not_lt_zero j)),
   (columnUnderPointer_spec cfgA 2 1000 100).2
      (by
        intro i hi
        interval_cases i <;>
          norm_num [inWidenedSpan, columnStartOnScreen, columnEndOnScreen,
            columnSpacing, spanTolerance, boardPadding, spacingSm, spacingMd, cfgA])
      (by omega)⟩

/-- C5: whenever an auto-scroll trigger fires it targets exactly the
centered column plus or minus one, and the target index always stays
inside `[0, visibleColumnCount - 1]`. -/
theorem scrollTrigger_adjacent (c : LayoutCfg) (n : ℕ) (t absoluteX : ℚ)
    (s : ScrollState) (target : ℤ)
    (h : (scrollBasedOnScreenPosition c n t absoluteX s).2 = some target) :
    (target = getCenteredCategoryIndex c n s.currentScrollX + 1 ∨
     target = getCenteredCategoryIndex c n s.currentScrollX - 1) ∧
    0 ≤ target ∧ target < (n : ℤ) := by
  have h0 : 0 ≤ getCenteredCategoryIndex c n s.currentScrollX := by
    simp only [getCenteredCategoryIndex]
    exact le_max_left _ _
  have hle : getCenteredCategoryIndex c n s.currentScrollX ≤ max 0 ((n : ℤ) - 1) := by
    simp only [getCenteredCategoryIndex]
    exact max_le_max (le_refl 0) (min_le_right _ _)
  by_cases h1 : s.isScrolling
  · simp [scrollBasedOnScreenPosition, h1] at h
  · by_cases hr : c.screenWidth - edgeThreshold c < absoluteX
    · by_cases hnext : (n : ℤ) ≤ getCenteredCategoryIndex c n s.currentScrollX + 1
      · simp [scrollBasedOnScreenPosition, h1, hr, hnext] at h
      · by_cases htime : (500 : ℚ) ≤ t - s.lastScrollTime
        · simp [scrollBasedOnScreenPosition, h1, hr, hnext, htime] at h
          refine ⟨Or.inl h.symm, by omega, by omega⟩
        · simp [scrollBasedOnScreenPosition, h1, hr, hnext, htime] at h
    · by_cases hl : absoluteX < edgeThreshold c
      · by_cases hprev : getCenteredCategoryIndex c n s.currentScrollX - 1 < 0
        · simp [scrollBasedOnScreenPosition, h1, hr, hl, hprev] at h
        · by_cases htime : (500 : ℚ) ≤ t - s.lastScrollTime
          · simp [scrollBasedOnScreenPosition, h1, hr, hl, hprev, htime] at h
            refine ⟨Or.inr h.symm, by omega, ?_⟩
            rcases max_choice 0 ((n : ℤ) - 1) with hmx | hmx <;> omega
          · simp [scrollBasedOnScreenPosition, h1, hr, hl, hprev, htime] at h
      · simp [scrollBasedOnScreenPosition, h1, hr, hl] at h

/-- Witness for `scrollTrigger_adjacent`: a right-edge hold on the concrete
phone triggers a scroll to column `1 = centered + 1`. -/
theorem scrollTrigger_adjacent_witness :
    ((1 : ℤ) = getCenteredCategoryIndex cfgA 2 sScrollW.currentScrollX + 1 ∨
     (1 : ℤ) = getCenteredCategoryIndex cfgA 2 sScrollW.currentScrollX - 1) ∧
    (0 : ℤ) ≤ 1 ∧ (1 : ℤ) < ((2 : ℕ) : ℤ) := by
  have hcen : getCenteredCategoryIndex cfgA 2 0 = 0 := by
    have hf : Int.floor (((0 : ℚ) + screenCenter cfgA - boardPadding) /
        columnSpacing cfgA) = 0 := by
      rw [Int.floor_eq_iff]
      constructor <;>
        norm_num [screenCenter, boardPadding, spacingMd, columnSpacing,
          spacingSm, cfgA]
    simp only [getCenteredCategoryIndex, hf]
    norm_num
  refine scrollTrigger_adjacent cfgA 2 1000 390 sScrollW 1 ?_
  have hsx : sScrollW.currentScrollX = 0 := rfl
  simp only [scrollBasedOnScreenPosition, hsx, hcen]
  norm_num [sScrollW, initScrollState, edgeThreshold, cfgA, hcen]

/-- `scrollBasedOnScreenPosition` either leaves the refs untouched without
triggering, or triggers: then the pre-state was idle and the post-state is
scrolling with the 500ms reset timer armed at `t + 500`. -/
theorem scrollBased_cases (c : LayoutCfg) (n : ℕ) (t absoluteX : ℚ)
    (s : ScrollState) :
    scrollBasedOnScreenPosition c n t absoluteX s = (s, none) ∨
    ((scrollBasedOnScreenPosition c n t absoluteX s).2 ≠ none ∧
     s.isScrolling = false ∧
     (scrollBasedOnScreenPosition c n t absoluteX s).1.isScrolling = true ∧
     (scrollBasedOnScreenPosition c n t absoluteX s).1.scrollTimer = some (t + 500)) := by
  have hne1 : getCenteredCategoryIndex c n s.currentScrollX + 1 ≠
      getCenteredCategoryIndex c n s.currentScrollX := by omega
  have hne2 : getCenteredCategoryIndex c n s.currentScrollX - 1 ≠
      getCenteredCategoryIndex c n s.currentScrollX := by omega
  by_cases h1 : s.isScrolling
  · left; simp [scrollBasedOnScreenPosition, h1]
  · by_cases hr : c.screenWidth - edgeThreshold c < absoluteX
    · by_cases hnext : (n : ℤ) ≤ getCenteredCategoryIndex c n s.currentScrollX + 1
      · left; simp [scrollBasedOnScreenPosition, h1, hr, hnext]
      · by_cases htime : (500 : ℚ) ≤ t - s.lastScrollTime
        · right
          simp [scrollBasedOnScreenPosition, h1, hr, hnext, htime, hne1]
        · left; simp [scrollBasedOnScreenPosition, h1, hr, hnext, htime, hne1]
    · by_cases hl : absoluteX < edgeThreshold c
      · by_cases hprev : getCenteredCategoryIndex c n s.currentScrollX - 1 < 0
        · left; simp [scrollBasedOnScreenPosition, h1, hr, hl, hprev]
        · by_cases htime : (500 : ℚ) ≤ t - s.lastScrollTime
          · right
            simp [scrollBasedOnScreenPosition, h1, hr, hl, hprev, htime, hne2]
          · left; simp [scrollBasedOnScreenPosition, h1, hr, hl, hprev, htime, hne2]
      · left; simp [scrollBasedOnScreenPosition, h1, hr, hl]

/-- The reset phase never touches `isScrollingRef`. -/
theorem dragOverReset_isScrolling (c : LayoutCfg) (n : ℕ) (absoluteX : ℚ)
    (s : ScrollState) : (dragOverReset c n absoluteX s).isScrolling = s.isScrolling := by
  unfold dragOverReset
  split <;> (dsimp only; split <;> rfl)

/-- The reset phase never touches the 500ms reset timer. -/
theorem dragOverReset_scrollTimer (c : LayoutCfg) (n : ℕ) (absoluteX : ℚ)
    (s : ScrollState) : (dragOverReset c n absoluteX s).scrollTimer = s.scrollTimer := by
  unfold dragOverReset
  split <;> (dsimp only; split <;> rfl)

/-- A triggering step: the pre-state was idle, the post-state is scrolling
and its 500ms reset timer expires at the event time plus 500. -/
theorem dragStep_some (c : LayoutCfg) (n : ℕ) (s : ScrollState) (e : DragEv)
    (s' : ScrollState) (i : ℤ) (h : dragStep c n s e = (s', some i)) :
    s.isScrolling = false ∧ s'.isScrolling = true ∧
    s'.scrollTimer = some (evTime e + 500) := by
  cases e with
  | move t x => simp [dragStep] at h
  | over t x =>
    simp only [dragStep, dragOverColumnScroll] at h
    split at h
    · rcases scrollBased_cases c n t x (dragOverReset c n x s) with hc | hc
      · rw [hc] at h
        injection h with hf hs
        cases hs
      · obtain ⟨hne, hpre, hpost, htimer⟩ := hc
        have hpre' : s.isScrolling = false := by
          rw [← dragOverReset_isScrolling c n x s]; exact hpre
        injection h with hf hs
        subst hf
        exact ⟨hpre', hpost, htimer⟩
    · injection h with hf hs
      cases hs
  | recheck t =>
    cases hct : s.checkTimer with
    | none => simp [dragStep, recheckFire, hct] at h
    | some ex =>
      simp only [dragStep, recheckFire, hct] at h
      split at h
      · split at h
        · split at h
          · rcases scrollBased_cases c n t
                ({ s with checkTimer := none }).currentDragX
                { s with checkTimer := none } with hc | hc
            · rw [hc] at h
              injection h with hf hs
              cases hs
            · obtain ⟨hne, hpre, hpost, htimer⟩ := hc
              rw [h] at hpost htimer
              exact ⟨hpre, hpost, htimer⟩
          · injection h with hf hs
            cases hs
        · injection h with hf hs
          cases hs
      · injection h with hf hs
        cases hs
  | timerDone t =>
    cases hst : s.scrollTimer with
    | none => simp [dragStep, scrollTimerFire, hst] at h
    | some ex =>
      simp only [dragStep, scrollTimerFire, hst] at h
      split at h <;>
        (injection h with hf hs; cases hs)

/-- A non-triggering step either preserves `isScrollingRef` and the 500ms
reset timer, or is the due reset timer firing at or after its expiry. -/
theorem dragStep_none (c : LayoutCfg) (n : ℕ) (s : ScrollState) (e : DragEv)
    (s' : ScrollState) (h : dragStep c n s e = (s', none)) :
    (s'.isScrolling = s.isScrolling ∧ s'.scrollTimer = s.scrollTimer) ∨
    (∃ ex, s.scrollTimer = some ex ∧ ex ≤ evTime e ∧ s'.isScrolling = false) := by
  cases e with
  | move t x =>
    left
    injection h with hf hs
    subst hf
    exact ⟨rfl, rfl⟩
  | over t x =>
    left
    simp only [dragStep, dragOverColumnScroll] at h
    split at h
    · rcases scrollBased_cases c n t x (dragOverReset c n x s) with hc | hc
      · rw [hc] at h
        injection h with hf hs
        subst hf
        exact ⟨dragOverReset_isScrolling c n x s, dragOverReset_scrollTimer c n x s⟩
      · obtain ⟨hne, _, _, _⟩ := hc
        injection h with hf hs
        exact absurd hs hne
    · injection h with hf hs
      subst hf
      exact ⟨dragOverReset_isScrolling c n x s, dragOverReset_scrollTimer c n x s⟩
  | recheck t =>
    cases hct : s.checkTimer with
    | none =>
      left
      simp only [dragStep, recheckFire, hct] at h
      injection h with hf hs
      subst hf
      exact ⟨rfl, rfl⟩
    | some ex =>
      left
      simp only [dragStep, recheckFire, hct] at h
      split at h
      · split at h
        · split at h
          · rcases scrollBased_cases c n t
                ({ s with checkTimer := none }).currentDragX
                { s with checkTimer := none } with hc | hc
            · rw [hc] at h
              injection h with hf hs
              subst hf
              exact ⟨rfl, rfl⟩
            · obtain ⟨hne, _, _, _⟩ := hc
              rw [h] at hne
              simp at hne
          · injection h with hf hs
            subst hf
            exact ⟨rfl, rfl⟩
        · injection h with hf hs
          subst hf
          exact ⟨rfl, rfl⟩
      · injection h with hf hs
        subst hf
        exact ⟨rfl, rfl⟩
  | timerDone t =>
    cases hst : s.scrollTimer with
    | none =>
      left
      simp only [dragStep, scrollTimerFire, hst] at h
      injection h with hf hs
      subst hf
      exact ⟨rfl, hst⟩
    | some ex =>
      simp only [dragStep, scrollTimerFire, hst] at h
      split at h
      · right
        injection h with hf hs
        subst hf
        next hle => exact ⟨ex, rfl, hle, rfl⟩
      · left
        injection h with hf hs
        subst hf
        exact ⟨rfl, hst⟩

/-- After a trigger at time `T`, every later trigger of the run is at least
500ms after it (and the triggers keep that spacing among themselves). -/
theorem runTriggers_chain_from (c : LayoutCfg) (n : ℕ) :
    ∀ (es : List DragEv) (s : ScrollState) (now T : ℚ),
      List.Chain' (· ≤ ·) (now :: es.map evTime) →
      ((s.isScrolling = true ∧ s.scrollTimer = some (T + 500)) ∨ T + 500 ≤ now) →
      List.Chain' (fun a b => a + 500 ≤ b) (T :: runTriggers c n s es) := by
  intro es
  induction es with
  | nil =>
    intro s now T hmono hconn
    simp [runTriggers]
  | cons e es ih =>
    intro s now T hmono hconn
    rw [List.map_cons] at hmono
    have hnow_le : now ≤ evTime e := (List.chain'_cons.mp hmono).1
    have hmono' : List.Chain' (· ≤ ·) (evTime e :: es.map evTime) :=
      (List.chain'_cons.mp hmono).2
    rcases hstep : dragStep c n s e with ⟨s2, trig⟩
    cases trig with
    | none =>
      have hconn' : (s2.isScrolling = true ∧ s2.scrollTimer = some (T + 500)) ∨
          T + 500 ≤ evTime e := by
        rcases dragStep_none c n s e s2 hstep with ⟨hpres1, hpres2⟩ | ⟨ex, hex, hexle, _⟩
        · rcases hconn with ⟨ha, hb⟩ | hb
          · exact Or.inl ⟨hpres1.trans ha, hpres2.trans hb⟩
          · exact Or.inr (by linarith)
        · rcases hconn with ⟨ha, hb⟩ | hb
          · refine Or.inr ?_
            rw [hex] at hb
            have : ex = T + 500 := by
              injection hb
            linarith
          · exact Or.inr (by linarith)
      have hrw : runTriggers c n s (e :: es) = runTriggers c n s2 es := by
        simp [runTriggers, hstep]
      rw [hrw]
      exact ih s2 (evTime e) T hmono' hconn'
    | some i =>
      obtain ⟨hpre, hpost, htimer⟩ := dragStep_some c n s e s2 i hstep
      have hTle : T + 500 ≤ evTime e := by
        rcases hconn with ⟨ha, _⟩ | hb
        · rw [hpre] at ha; cases ha
        · linarith
      have hrw : runTriggers c n s (e :: es) = evTime e :: runTriggers c n s2 es := by
        simp [runTriggers, hstep]
      rw [hrw, List.chain'_cons]
      exact ⟨hTle, ih s2 (evTime e) (evTime e) hmono' (Or.inl ⟨hpost, htimer⟩)⟩

/-- Along any time-monotone event run, consecutive triggers are at least
500ms apart. -/
theorem runTriggers_chain_all (c : LayoutCfg) (n : ℕ) :
    ∀ (es : List DragEv) (s : ScrollState) (now : ℚ),
      List.Chain' (· ≤ ·) (now :: es.map evTime) →
      List.Chain' (fun a b => a + 500 ≤ b) (runTriggers c n s es) := by
  intro es
  induction es with
  | nil => intro s now _; simp [runTriggers]
  | cons e es ih =>
    intro s now hmono
    rw [List.map_cons] at hmono
    have hmono' : List.Chain' (· ≤ ·) (evTime e :: es.map evTime) :=
      (List.chain'_cons.mp hmono).2
    rcases hstep : dragStep c n s e with ⟨s2, trig⟩
    cases trig with
    | none =>
      have hrw : runTriggers c n s (e :: es) = runTriggers c n s2 es := by
        simp [runTriggers, hstep]
      rw [hrw]
      exact ih s2 (evTime e) hmono'
    | some i =>
      obtain ⟨hpre, hpost, htimer⟩ := dragStep_some c n s e s2 i hstep
      have hrw : runTriggers c n s (e :: es) = evTime e :: runTriggers c n s2 es := by
        simp [runTriggers, hstep]
      rw [hrw]
      exact runTriggers_chain_from c n es s2 (evTime e) (evTime e) hmono'
        (Or.inl ⟨hpost, htimer⟩)

/-- C6: within one drag session (pointer updates, re-check timer firings and
reset-timer firings in time order), any two auto-scroll triggers are at
least 500ms apart — including across the bookkeeping reset that happens
while the card sits centered away from the edges. -/
theorem autoScroll_cooldown (c : LayoutCfg) (n : ℕ) (es : List DragEv)
    (h : List.Chain' (· ≤ ·) (es.map evTime)) :
    List.Pairwise (fun a b => a + 500 ≤ b)
      (runTriggers c n initScrollState es) := by
  have hchain : List.Chain' (fun a b => a + 500 ≤ b)
      (runTriggers c n initScrollState es) := by
    cases es with
    | nil => simp [runTriggers]
    | cons e es' =>
      refine runTriggers_chain_all c n (e :: es') initScrollState (evTime e) ?_
      rw [List.map_cons]
      exact List.chain'_cons.mpr ⟨le_refl _, by simpa using h⟩
  haveI : IsTrans ℚ (fun a b => a + 500 ≤ b) :=
    ⟨fun a b c hab hbc => by linarith [hab, hbc]⟩
  exact List.chain'_iff_pairwise.mp hchain

/-- Witness for `autoScroll_cooldown`: a concrete right-edge hold, the reset
timer firing, and a second hold 600ms later. -/
theorem autoScroll_cooldown_witness :
    List.Pairwise (fun a b => a + 500 ≤ b)
      (runTriggers cfgA 3 initScrollState esW) :=
  autoScroll_cooldown cfgA 3 esW (by
    simp only [esW, evTime, List.map_cons, List.map_nil]
    refine List.chain'_cons.mpr ⟨by norm_num, List.chain'_cons.mpr ⟨by norm_num, ?_⟩⟩
    simp)
